import Mathlib

/-!
Verification of the bvhio BVH parser (`src/bvhio/parser.py`) against its
natural-language specification. The Python source is shallowly embedded:
the input stream is a list of lines, Python floats are modelled as exact
rationals, Python exceptions are an explicit error type (`PyErr`), and the
external SpatialTransform collaborators (`Euler.toQuatFrom`, `Joint.getEuler`)
are passed as explicit function parameters, since the claims under study do
not depend on their values.
-/

namespace Bvhio

/-- Whitespace for Python str.split tokenization (space and tab suffice for
the line-oriented grammar considered here). -/
def isWS (c : Char) : Bool := c = ' ' || c = '\t'

/-- Tokenizer worker: split a character list on whitespace runs, dropping
empty tokens, accumulating the current token in reverse. -/
def splitWSAux (cs : List Char) (acc : List Char) : List (List Char) :=
  match cs with
  | [] => if acc.isEmpty then [] else [acc.reverse]
  | c :: rest =>
    if isWS c then
      if acc.isEmpty then splitWSAux rest []
      else acc.reverse :: splitWSAux rest []
    else splitWSAux rest (c :: acc)

/-- Python `line.strip().split()`: split on whitespace runs, dropping empties. -/
def pysplit (line : String) : List String :=
  (splitWSAux line.data []).map (fun t => String.mk t)

/-- Python `len(line) - len(line.lstrip())`: number of leading whitespace chars. -/
def leadingWS (line : String) : Nat := (line.data.takeWhile isWS).length

/-- The column recorded in debug info: leading whitespace plus the length of
the first token, as computed on line 13 of parser.py. -/
def pycol (line : String) : Nat :=
  leadingWS line + (((pysplit line).headD "").length)

/-- The debug position `(lineNumber, column, raw line)` Python attaches to
every SyntaxError (the file handle in the Python tuple carries no data). -/
structure Debug where
  line : Nat
  col : Nat
  raw : String
deriving DecidableEq

/-- Python exceptions raised by the parser: bare IndexError (no position
payload) and SyntaxError with message and debug position. -/
inductive PyErr where
  | indexError
  | syntaxError (msg : String) (dbg : Debug)
deriving DecidableEq

/-- Python `file.readline()` on a stream modelled as the list of remaining
lines: returns the empty string at end of stream. -/
def readline : List String → String × List String
  | [] => ("", [])
  | l :: ls => (l, ls)

/-- parser.py `parseLine` (lines 9-14): bump the line counter, read and
tokenize one line, and build the debug tuple. Accessing `tokens[0]` on an
empty token list (end of stream, or a blank line) raises IndexError. -/
def parseLine (file : List String) (lineNumber : Nat) :
    Except PyErr (Nat × List String × Debug × List String) :=
  let n := lineNumber + 1
  let lr := readline file
  match pysplit lr.1 with
  | [] => .error .indexError
  | t0 :: ts => .ok (n, t0 :: ts, ⟨n, leadingWS lr.1 + t0.length, lr.1⟩, lr.2)

/-- Value of a digit string (no validity check; guarded by callers). -/
def digitVal (cs : List Char) : Nat :=
  cs.foldl (fun a c => a * 10 + (c.toNat - 48)) 0

/-- Nonempty all-digit character list to a natural number. -/
def digitsQ (cs : List Char) : Option Nat :=
  if cs.isEmpty then none
  else if cs.all Char.isDigit then some (digitVal cs) else none

/-- Python `int(s)` restricted to an optional sign followed by digits
(whitespace and underscore tolerance of CPython are not exercised here). -/
def parseInt (s : String) : Option Int :=
  match s.data with
  | '-' :: cs => (digitsQ cs).map (fun n => -(n : Int))
  | '+' :: cs => (digitsQ cs).map (fun n => (n : Int))
  | cs => (digitsQ cs).map (fun n => (n : Int))

/-- Mantissa of a decimal literal: digits with an optional single point,
at least one digit overall (accepts forms like 5, 5., .5, 0.25). -/
def mantissaQ (cs : List Char) : Option ℚ :=
  let ip := cs.takeWhile (fun c => c ≠ '.')
  match cs.dropWhile (fun c => c ≠ '.') with
  | [] => (digitsQ ip).map (fun n => (n : ℚ))
  | _ :: fp =>
    if (ip.isEmpty && fp.isEmpty) || !(ip.all Char.isDigit) ||
        !(fp.all Char.isDigit) || fp.any (fun c => c = '.') then none
    else some ((digitVal ip : ℚ) + (digitVal fp : ℚ) / (10 : ℚ) ^ fp.length)

/-- Python `float(s)` restricted to optional sign and a decimal mantissa,
modelled exactly over the rationals (exponent notation, inf and nan are not
exercised by the claims). -/
def parseFloat (s : String) : Option ℚ :=
  match s.data with
  | '-' :: cs => (mantissaQ cs).map (fun q => -q)
  | '+' :: cs => mantissaQ cs
  | cs => mantissaQ cs

/-- Exact 3-vector over the rationals, standing for glm.vec3. -/
structure Vec3 where
  x : ℚ
  y : ℚ
  z : ℚ
deriving DecidableEq

/-- Exact quaternion over the rationals, standing for glm.quat. -/
structure Quat where
  w : ℚ
  x : ℚ
  y : ℚ
  z : ℚ
deriving DecidableEq

/-- Hamilton product, standing for glm quat * quat. -/
def qmul (a b : Quat) : Quat :=
  ⟨a.w * b.w - a.x * b.x - a.y * b.y - a.z * b.z,
   a.w * b.x + a.x * b.w + a.y * b.z - a.z * b.y,
   a.w * b.y - a.x * b.z + a.y * b.w + a.z * b.x,
   a.w * b.z + a.x * b.y - a.y * b.x + a.z * b.w⟩

/-- Squared norm of a quaternion. -/
def qnorm2 (a : Quat) : ℚ := a.w * a.w + a.x * a.x + a.y * a.y + a.z * a.z

/-- glm.inverse on quaternions: conjugate divided by the squared norm
(conjugate for unit quaternions, as the spec notes). -/
def qinv (a : Quat) : Quat :=
  let n := qnorm2 a
  ⟨a.w / n, -a.x / n, -a.y / n, -a.z / n⟩

/-- Rotation of a vector by a quaternion (glm quat * vec3), via the
sandwich product: vector part of q * (0, v) * inverse q. -/
def qrotv (q : Quat) (v : Vec3) : Vec3 :=
  let p : Quat := ⟨0, v.x, v.y, v.z⟩
  let r := qmul (qmul q p) (qinv q)
  ⟨r.x, r.y, r.z⟩

/-- One keyframe sample: Pose from the bvhio library (position + rotation). -/
structure Pose where
  Position : Vec3
  Rotation : Quat
deriving DecidableEq

mutual
/-- Modelled from the spec: RootPose, the file-native joint node built by the
hierarchy parser (its class lives in the repository's lib package, absent from
src/): name, static offset, channel-name list, optional end-site offset,
per-frame keyframes, and the ordered children. -/
inductive RootPose where
  | mk (Name : String) (Offset : Vec3) (Channels : List String)
       (EndSite : Option Vec3) (Keyframes : List Pose) (Children : RPList)

/-- Ordered list of RootPose children (a dedicated mutual inductive so that
all tree recursions below are structural and kernel-reducible). -/
inductive RPList where
  | nil
  | cons (head : RootPose) (tail : RPList)
end

def RootPose.Name : RootPose → String
  | .mk n _ _ _ _ _ => n

def RootPose.Offset : RootPose → Vec3
  | .mk _ o _ _ _ _ => o

def RootPose.Channels : RootPose → List String
  | .mk _ _ ch _ _ _ => ch

def RootPose.EndSite : RootPose → Option Vec3
  | .mk _ _ _ es _ _ => es

def RootPose.Keyframes : RootPose → List Pose
  | .mk _ _ _ _ kf _ => kf

def RootPose.Children : RootPose → RPList
  | .mk _ _ _ _ _ cs => cs

def RPList.length : RPList → Nat
  | .nil => 0
  | .cons _ cs => cs.length + 1

def RPList.get? : RPList → Nat → Option RootPose
  | .nil, _ => none
  | .cons c _, 0 => some c
  | .cons _ cs, n + 1 => cs.get? n

/-- Append one child at the end (Python list.append on joint.Children). -/
def RPList.push : RPList → RootPose → RPList
  | .nil, c => .cons c .nil
  | .cons a cs, c => .cons a (cs.push c)

/-- The working state of the channel loop in `deserializeMotion`:
position (seeded from the static offset), rotation-angle vector,
rotation-order string, and the shared cursor into the frame vector. -/
structure MotState where
  position : Vec3
  rotation : Vec3
  rotOrder : String
  index : Nat
deriving DecidableEq

/-- One iteration of the channel loop of `deserializeMotion` (parser.py lines
168-175): a recognized channel reads `data[index]` (IndexError when out of
range) and writes the matching axis, rotation channels also append their axis
letter to the order string; any other channel name reads nothing; the cursor
advances by one in every case. -/
def chanStep (data : List ℚ) (st : MotState) (channel : String) :
    Except PyErr MotState :=
  if channel = "Xposition" then
    match data.get? st.index with
    | some v => .ok ⟨⟨v, st.position.y, st.position.z⟩, st.rotation, st.rotOrder, st.index + 1⟩
    | none => .error .indexError
  else if channel = "Yposition" then
    match data.get? st.index with
    | some v => .ok ⟨⟨st.position.x, v, st.position.z⟩, st.rotation, st.rotOrder, st.index + 1⟩
    | none => .error .indexError
  else if channel = "Zposition" then
    match data.get? st.index with
    | some v => .ok ⟨⟨st.position.x, st.position.y, v⟩, st.rotation, st.rotOrder, st.index + 1⟩
    | none => .error .indexError
  else if channel = "Xrotation" then
    match data.get? st.index with
    | some v => .ok ⟨st.position, ⟨v, st.rotation.y, st.rotation.z⟩, st.rotOrder ++ "X", st.index + 1⟩
    | none => .error .indexError
  else if channel = "Yrotation" then
    match data.get? st.index with
    | some v => .ok ⟨st.position, ⟨st.rotation.x, v, st.rotation.z⟩, st.rotOrder ++ "Y", st.index + 1⟩
    | none => .error .indexError
  else if channel = "Zrotation" then
    match data.get? st.index with
    | some v => .ok ⟨st.position, ⟨st.rotation.x, st.rotation.y, v⟩, st.rotOrder ++ "Z", st.index + 1⟩
    | none => .error .indexError
  else .ok ⟨st.position, st.rotation, st.rotOrder, st.index + 1⟩

mutual
/-- parser.py `deserializeMotion` (lines 163-180), with the external
`Euler.toQuatFrom(glm.radians(rotation), rotOrder, False)` conversion passed
as the parameter `tq`: fold the joint's channels over the shared cursor,
append the decoded pose to the joint's keyframes, then recurse into the
children threading the advanced cursor, returning the final cursor. -/
def deserializeMotion (tq : Vec3 → String → Quat) :
    RootPose → List ℚ → Nat → Except PyErr (RootPose × Nat)
  | .mk n o ch es kf cs, data, idx =>
    match ch.foldlM (chanStep data) ⟨o, ⟨0, 0, 0⟩, "", idx⟩ with
    | .error e => .error e
    | .ok st =>
      match deserializeMotionList tq cs data st.index with
      | .error e => .error e
      | .ok res =>
        .ok (.mk n o ch es (kf ++ [⟨st.position, tq st.rotation st.rotOrder⟩]) res.1, res.2)

/-- The `for child in joint.Children` loop of `deserializeMotion`: thread the
cursor left to right through the children. -/
def deserializeMotionList (tq : Vec3 → String → Quat) :
    RPList → List ℚ → Nat → Except PyErr (RPList × Nat)
  | .nil, _, idx => .ok (.nil, idx)
  | .cons c cs, data, idx =>
    match deserializeMotion tq c data idx with
    | .error e => .error e
    | .ok rc =>
      match deserializeMotionList tq cs data rc.2 with
      | .error e => .error e
      | .ok rcs => .ok (.cons rc.1 rcs.1, rcs.2)
end

mutual
/-- Total number of channel entries in a joint's subtree. -/
def totalChannels : RootPose → Nat
  | .mk _ _ ch _ _ cs => ch.length + totalChannelsList cs

/-- Total number of channel entries in a list of subtrees. -/
def totalChannelsList : RPList → Nat
  | .nil => 0
  | .cons c cs => totalChannels c + totalChannelsList cs
end

mutual
/-- The motion decode as the spec words it, with the cursor arithmetic made
explicit instead of threaded: each joint consumes its own channels starting
at its pre-order offset, and each child starts at the parent's offset plus
the parent's channel count plus the totals of the earlier siblings. -/
def decodeSpec (tq : Vec3 → String → Quat) :
    RootPose → List ℚ → Nat → Except PyErr RootPose
  | .mk n o ch es kf cs, data, idx =>
    match ch.foldlM (chanStep data) ⟨o, ⟨0, 0, 0⟩, "", idx⟩ with
    | .error e => .error e
    | .ok st =>
      match decodeSpecList tq cs data (idx + ch.length) with
      | .error e => .error e
      | .ok kids =>
        .ok (.mk n o ch es (kf ++ [⟨st.position, tq st.rotation st.rotOrder⟩]) kids)

/-- Children decoded at independently computed pre-order offsets. -/
def decodeSpecList (tq : Vec3 → String → Quat) :
    RPList → List ℚ → Nat → Except PyErr RPList
  | .nil, _, _ => .ok .nil
  | .cons c cs, data, s =>
    match decodeSpec tq c data s with
    | .error e => .error e
    | .ok c2 =>
      match decodeSpecList tq cs data (s + totalChannels c) with
      | .error e => .error e
      | .ok cs2 => .ok (.cons c2 cs2)
end

/-- parser.py `deserializeJointName` (lines 101-104). The guard
`not isinstance(tokens, list) and len(tokens) != 2` can never fire in Python
(`tokens` is always a list, so the conjunction short-circuits to False), so
the function unconditionally returns `tokens[1]`, with a bare IndexError when
fewer than two tokens are present. -/
def deserializeJointName (tokens : List String) (_dbg : Debug) :
    Except PyErr String :=
  match tokens.get? 1 with
  | some n => .ok n
  | none => .error .indexError

/-- parser.py `deserializeOffset` (lines 106-115): read one line, require the
OFFSET keyword and exactly three trailing tokens, convert them as floats.
Returns the vector together with the remaining stream (the Python file object
is mutated in place). -/
def deserializeOffset (file : List String) (line : Nat) :
    Except PyErr (Vec3 × List String) :=
  match parseLine file line with
  | .error e => .error e
  | .ok (_, t0 :: ts, dbg, rest) =>
    if t0 ≠ "OFFSET" then
      .error (.syntaxError "Expected OFFSET definition for joint" dbg)
    else if ts.length ≠ 3 then
      .error (.syntaxError "Offset must be a 3-part tuple" dbg)
    else
      match ts.mapM parseFloat with
      | some [a, b, c] => .ok (⟨a, b, c⟩, rest)
      | _ => .error (.syntaxError "Offset must be numerics only" dbg)
  | .ok (_, [], _, _) => .error .indexError

/-- parser.py `deserializeChannles` (lines 117-129; the source spells the
name this way): read one line, require the CHANNELS keyword, at least two
tokens, a numeric count, and the count to equal the number of trailing label
tokens; the labels are returned without any vocabulary validation. -/
def deserializeChannles (file : List String) (line : Nat) :
    Except PyErr (List String × List String) :=
  match parseLine file line with
  | .error e => .error e
  | .ok (_, t0 :: ts, dbg, rest) =>
    if t0 ≠ "CHANNELS" then
      .error (.syntaxError "Expected CHANNELS definition for joint" dbg)
    else
      match ts with
      | [] => .error (.syntaxError "Channels must be at least a 2-part tuple" dbg)
      | cnt :: labels =>
        match parseInt cnt with
        | none => .error (.syntaxError "Channel count must be numerical" dbg)
        | some n =>
          if n ≠ (labels.length : Int) then
            .error (.syntaxError "Channel count mismatch with labels" dbg)
          else .ok (labels, rest)
  | .ok (_, [], _, _) => .error .indexError

/-- parser.py `deserializeEndSite` (lines 131-139): an opening bracket line,
an OFFSET line, and a closing bracket line. -/
def deserializeEndSite (file : List String) (line : Nat) :
    Except PyErr (Vec3 × List String) :=
  match parseLine file line with
  | .error e => .error e
  | .ok (line2, t0 :: _, dbg, f1) =>
    if t0 ≠ "\x7b" then
      .error (.syntaxError "End Site definition must start with an opening bracket" dbg)
    else
      match deserializeOffset f1 line2 with
      | .error e => .error e
      | .ok (v, f2) =>
        match parseLine f2 line2 with
        | .error e => .error e
        | .ok (_, u0 :: _, dbg2, f3) =>
          if u0 ≠ "\x7d" then
            .error (.syntaxError "End Site definition must end with a closing bracket" dbg2)
          else .ok (v, f3)
        | .ok (_, [], _, _) => .error .indexError
  | .ok (_, [], _, _) => .error .indexError

/-- parser.py `deserializeFrameTime` (lines 141-147): exactly one token,
converted with `float`; no positivity requirement is checked. -/
def deserializeFrameTime (data : List String) (dbg : Debug) :
    Except PyErr ℚ :=
  match data with
  | [t] =>
    match parseFloat t with
    | some q => .ok q
    | none => .error (.syntaxError "Frame time be numerical" dbg)
  | _ => .error (.syntaxError "Frame time must be a 1-dimensional tuple" dbg)

/-- parser.py `deserializeFrameCount` (lines 149-155): exactly one token,
converted with `int`; no non-negativity requirement is checked. -/
def deserializeFrameCount (data : List String) (dbg : Debug) :
    Except PyErr Int :=
  match data with
  | [t] =>
    match parseInt t with
    | some n => .ok n
    | none => .error (.syntaxError "Frame time be numerical" dbg)
  | _ => .error (.syntaxError "Frame count must be a 1-dimensional tuple" dbg)

/-- parser.py `deserializeKeyframe` (lines 157-161): convert every token of
the line with `float`; no arity check against the channel counts is made. -/
def deserializeKeyframe (tokens : List String) (dbg : Debug) :
    Except PyErr (List ℚ) :=
  match tokens.mapM parseFloat with
  | some ds => .ok ds
  | none => .error (.syntaxError "Keyframe must be numerics only" dbg)

mutual
/-- parser.py `parseJoint` (lines 75-99): opening bracket, OFFSET, CHANNELS,
then the JOINT / End / closing-bracket loop. The fuel argument only bounds
the recursion depth for Lean; every fuel decrement consumes at least one
input line, so fuel exceeding the stream length is never exhausted (the
concrete theorems below all evaluate with ample fuel). Note the caller's
line counter is passed on but updates made inside callees are lost, exactly
as in the Python source (only debug line numbers are affected). -/
def parseJoint (fuel : Nat) (file : List String) (name : String) (line : Nat) :
    Except PyErr (RootPose × List String) :=
  match fuel with
  | 0 => .error .indexError
  | f + 1 =>
    match parseLine file line with
    | .error e => .error e
    | .ok (line1, t0 :: ts, dbg, f1) =>
      if t0 ≠ "\x7b" || ts.length + 1 > 1 then
        .error (.syntaxError "Joint definition must start with an opening bracket" dbg)
      else
        match deserializeOffset f1 line1 with
        | .error e => .error e
        | .ok (off, f2) =>
          match deserializeChannles f2 line1 with
          | .error e => .error e
          | .ok (chs, f3) =>
            match parseJointLoop f f3 line1 .nil none with
            | .error e => .error e
            | .ok (children, es, f4) =>
              .ok (.mk name off chs es [] children, f4)
    | .ok (_, [], _, _) => .error .indexError

/-- The `while(True)` body of `parseJoint` (lines 87-96), accumulating
children in order and recording the last End Site seen. -/
def parseJointLoop (fuel : Nat) (file : List String) (line : Nat)
    (children : RPList) (es : Option Vec3) :
    Except PyErr (RPList × Option Vec3 × List String) :=
  match fuel with
  | 0 => .error .indexError
  | f + 1 =>
    match parseLine file line with
    | .error e => .error e
    | .ok (line2, t0 :: ts, dbg, f1) =>
      if t0 = "JOINT" then
        match deserializeJointName (t0 :: ts) dbg with
        | .error e => .error e
        | .ok nm =>
          match parseJoint f f1 nm line2 with
          | .error e => .error e
          | .ok (child, f2) => parseJointLoop f f2 line2 (children.push child) es
      else if t0 = "End" then
        match deserializeEndSite f1 line2 with
        | .error e => .error e
        | .ok (v, f2) => parseJointLoop f f2 line2 children (some v)
      else if t0 = "\x7d" then .ok (children, es, f1)
      else
        .error (.syntaxError "Joint definition must end with an child joint, end site or closing bracket" dbg)
    | .ok (_, [], _, _) => .error .indexError
end

/-- Modelled from the spec: the BVH container handed back by `readAsBVH`
(the BVH class itself lives in the repository's lib package, absent from
src/): the root joint tree, the frame count and the frame time. -/
structure BVH where
  Root : RootPose
  FrameCount : Int
  FrameTime : ℚ

/-- The `for _ in range(bvh.FrameCount)` motion loop of `readAsBVH`
(lines 54-56): per frame, read one line, convert it to numerics, and decode
it into the joint tree with the cursor starting at 0. -/
def motionLoop (tq : Vec3 → String → Quat) :
    Nat → RootPose → List String → Nat → Except PyErr (RootPose × List String × Nat)
  | 0, root, file, line => .ok (root, file, line)
  | k + 1, root, file, line =>
    match parseLine file line with
    | .error e => .error e
    | .ok (line2, tokens, dbg, f1) =>
      match deserializeKeyframe tokens dbg with
      | .error e => .error e
      | .ok data =>
        match deserializeMotion tq root data 0 with
        | .error e => .error e
        | .ok (root2, _) => motionLoop tq k root2 f1 line2

/-- parser.py `readAsBVH` (lines 16-58) on an already-opened stream (the
path existence check precedes any parsing and is outside this model). Note
line 25 is the Python expression
`not tokens[0] == HIERARCHY and len(tokens) == 1`, which by precedence only
raises when the first token differs AND the line has exactly one token; and
`parseJoint` is invoked with its line argument left at the default 0, as in
the source. -/
def readAsBVH (tq : Vec3 → String → Quat) (file : List String) :
    Except PyErr BVH :=
  match parseLine file 0 with
  | .error e => .error e
  | .ok (line1, t0 :: ts, dbg, f1) =>
    if t0 ≠ "HIERARCHY" && (t0 :: ts).length = 1 then
      .error (.syntaxError "First line must be only HIERARCHY" dbg)
    else
      match parseLine f1 line1 with
      | .error e => .error e
      | .ok (line2, u0 :: us, dbg2, f2) =>
        if u0 ≠ "ROOT" then
          .error (.syntaxError "First Joint must be defined as ROOT" dbg2)
        else
          match deserializeJointName (u0 :: us) dbg2 with
          | .error e => .error e
          | .ok rootName =>
            match parseJoint (f2.length + 2) f2 rootName 0 with
            | .error e => .error e
            | .ok (root, f3) =>
              match parseLine f3 line2 with
              | .error e => .error e
              | .ok (line3, v0 :: vs, dbg3, f4) =>
                if v0 ≠ "MOTION" || (v0 :: vs).length ≠ 1 then
                  .error (.syntaxError "After end of hierarchy must follow MOTION" dbg3)
                else
                  match parseLine f4 line3 with
                  | .error e => .error e
                  | .ok (line4, w0 :: ws, dbg4, f5) =>
                    if w0 ≠ "Frames:" || (w0 :: ws).length ≠ 2 then
                      .error (.syntaxError "First line of MOTION section has to be Frames: X" dbg4)
                    else
                      match deserializeFrameCount ws dbg4 with
                      | .error e => .error e
                      | .ok fc =>
                        match parseLine f5 line4 with
                        | .error e => .error e
                        | .ok (line5, x0 :: xs, dbg5, f6) =>
                          if x0 ≠ "Frame" || (x0 :: xs).length ≠ 3 then
                            .error (.syntaxError "After frame count must follow Frame Time" dbg5)
                          else
                            match deserializeFrameTime (xs.drop 1) dbg5 with
                            | .error e => .error e
                            | .ok ft =>
                              match motionLoop tq fc.toNat root f6 line5 with
                              | .error e => .error e
                              | .ok (root2, _, _) => .ok ⟨root2, fc, ft⟩
                        | .ok (_, [], _, _) => .error .indexError
                  | .ok (_, [], _, _) => .error .indexError
              | .ok (_, [], _, _) => .error .indexError
      | .ok (_, [], _, _) => .error .indexError
  | .ok (_, [], _, _) => .error .indexError

mutual
/-- Modelled from the spec: the internal Joint representation produced by the
rebasing pass (the Joint class comes from the external SpatialTransform
package): name, rest position (offset), stored bind rotation, channel list,
rebased keyframes, and attached children. -/
inductive Joint where
  | mk (Name : String) (Position : Vec3) (Rotation : Quat)
       (Channels : List String) (Keyframes : List Pose) (Children : JList)

/-- Ordered list of Joint children. -/
inductive JList where
  | nil
  | cons (head : Joint) (tail : JList)
end

def Joint.Name : Joint → String
  | .mk n _ _ _ _ _ => n

def Joint.Position : Joint → Vec3
  | .mk _ p _ _ _ _ => p

def Joint.Rotation : Joint → Quat
  | .mk _ _ r _ _ _ => r

def Joint.Channels : Joint → List String
  | .mk _ _ _ ch _ _ => ch

def Joint.Keyframes : Joint → List Pose
  | .mk _ _ _ _ kf _ => kf

def Joint.Children : Joint → JList
  | .mk _ _ _ _ _ cs => cs

def JList.get? : JList → Nat → Option Joint
  | .nil, _ => none
  | .cons c _, 0 => some c
  | .cons _ cs, n + 1 => cs.get? n

/-- Modelled from the spec: `RootPose.getRotation` (defined in the
repository's lib package, absent from src/) — the joint's bind rotation,
taken as its first-frame accumulated rotation, or the identity quaternion
when there is no first frame. -/
def getRotation (pose : RootPose) : Quat :=
  match pose.Keyframes with
  | [] => ⟨1, 0, 0, 0⟩
  | f :: _ => f.Rotation

mutual
/-- parser.py `convertBvhToJoint` (lines 60-70): build the Joint with the
pose's bind rotation, multiply every keyframe rotation on the right by the
bind rotation, then for each converted child rewrite every keyframe by the
inverse bind rotation and attach it (`Joint.attach` of the external
SpatialTransform package is modelled from the spec as appending the child). -/
def convertBvhToJoint (pose : RootPose) : Joint :=
  match pose with
  | .mk n o ch es kf cs =>
    let R := getRotation (.mk n o ch es kf cs)
    Joint.mk n o R ch (kf.map (fun f => ⟨f.Position, qmul f.Rotation R⟩))
      (convertChildren R cs)

/-- The `for child in pose.Children` loop of `convertBvhToJoint`: convert the
child, then rewrite each of its keyframes in place by the inverse of the
parent's bind rotation. -/
def convertChildren (R : Quat) : RPList → JList
  | .nil => .nil
  | .cons c cs =>
    let c2 := convertBvhToJoint c
    .cons
      (match c2 with
       | .mk n2 p2 r2 ch2 kf2 cc2 =>
         .mk n2 p2 r2 ch2
           (kf2.map (fun fr => ⟨qrotv (qinv R) fr.Position, qmul (qinv R) fr.Rotation⟩))
           cc2)
      (convertChildren R cs)
end

/-- Python `round(x, p)` over exact rationals: scale, round to the nearest
integer, and rescale. (CPython rounds exact halves to even; the inputs
exercised here are never exact halves, so the distinction is immaterial.) -/
def roundTo (p : Nat) (x : ℚ) : ℚ := ((round (x * 10 ^ p) : ℤ) : ℚ) / 10 ^ p

/-- The rotation-order string computed on line 209 of parser.py: first letter
of each channel whose tail is the word rotation, in declared order. -/
def jointRotOrder (ch : List String) : String :=
  String.join ((ch.filter (fun c => c.drop 1 = "rotation")).map (fun c => c.take 1))

mutual
/-- parser.py `writeMotion` (lines 208-222), returning the sequence of
numeric values emitted for one frame (their decimal rendering to text is
immaterial to the claims). The Euler angles are obtained from
`joint.getEuler(rotOrder, extrinsic=False)` — a function of the joint's
stored rotation only, passed here as the parameter `ge`; the `frame`
argument is used for the position lookup but not for the rotation, exactly
as in the source. -/
def writeMotion (ge : Quat → String → Vec3) (pr : Nat) :
    Joint → Nat → Except PyErr (List ℚ)
  | .mk _ _ R ch kf cs, frame =>
    let ro := jointRotOrder ch
    let rotation := ge R ro
    match kf.get? frame with
    | none => .error .indexError
    | some pf =>
      let position := pf.Position
      let out := ch.foldl (fun acc c =>
        if c = "Xposition" then acc ++ [roundTo pr position.x]
        else if c = "Yposition" then acc ++ [roundTo pr position.y]
        else if c = "Zposition" then acc ++ [roundTo pr position.z]
        else if c = "Xrotation" then acc ++ [roundTo pr rotation.x]
        else if c = "Yrotation" then acc ++ [roundTo pr rotation.y]
        else if c = "Zrotation" then acc ++ [roundTo pr rotation.z]
        else acc) []
      match writeMotionList ge pr cs frame with
      | .error e => .error e
      | .ok rest => .ok (out ++ rest)

/-- The `for child in joint.Children` loop of `writeMotion`. -/
def writeMotionList (ge : Quat → String → Vec3) (pr : Nat) :
    JList → Nat → Except PyErr (List ℚ)
  | .nil, _ => .ok []
  | .cons j js, frame =>
    match writeMotion ge pr j frame with
    | .error e => .error e
    | .ok out =>
      match writeMotionList ge pr js frame with
      | .error e => .error e
      | .ok rest => .ok (out ++ rest)
end

/-! Concrete inputs used by the closed theorems below. -/

/-- A concrete stand-in for the external Euler-to-quaternion conversion, used
only in closed instances (the claims do not depend on its values). -/
def tqConst : Vec3 → String → Quat := fun _ _ => ⟨1, 0, 0, 0⟩

/-- A one-joint hierarchy with a single position channel. -/
def rpX : RootPose := .mk "a" ⟨0, 0, 0⟩ ["Xposition"] none [] .nil

/-- A stream whose first line is a wrong keyword with two tokens, followed by
a fully valid document. -/
def linesWrongHeader : List String :=
  ["FOO BAR", "ROOT a", "\x7b", "OFFSET 0 0 0", "CHANNELS 0", "End Site",
   "\x7b", "OFFSET 0 0 0", "\x7d", "\x7d", "MOTION", "Frames: 0", "Frame Time: 0.5"]

/-- A stream whose first line is HIERARCHY followed by a trailing token. -/
def linesTrailingHeader : List String :=
  ["HIERARCHY trailing", "ROOT a", "\x7b", "OFFSET 0 0 0", "CHANNELS 0", "End Site",
   "\x7b", "OFFSET 0 0 0", "\x7d", "\x7d", "MOTION", "Frames: 0", "Frame Time: 0.5"]

/-- A stream whose ROOT line carries two extra trailing tokens. -/
def linesRootExtra : List String :=
  ["HIERARCHY", "ROOT hips extra junk", "\x7b", "OFFSET 0 0 0", "CHANNELS 0", "End Site",
   "\x7b", "OFFSET 0 0 0", "\x7d", "\x7d", "MOTION", "Frames: 0", "Frame Time: 0.5"]

/-- A valid document declaring Frames: 2 but providing only one motion line. -/
def linesShortMotion : List String :=
  ["HIERARCHY", "ROOT a", "\x7b", "OFFSET 0 0 0", "CHANNELS 1 Xposition", "End Site",
   "\x7b", "OFFSET 0 0 0", "\x7d", "\x7d", "MOTION", "Frames: 2", "Frame Time: 0.5", "1"]

/-- A two-frame joint whose keyframe rotations differ between the frames
while the positions agree; its stored rotation is the identity. -/
def jXrot : Joint :=
  .mk "a" ⟨0, 0, 0⟩ ⟨1, 0, 0, 0⟩ ["Xrotation"]
    [⟨⟨0, 0, 0⟩, ⟨1, 0, 0, 0⟩⟩, ⟨⟨0, 0, 0⟩, ⟨0, 1, 0, 0⟩⟩] .nil

/-! Helper lemmas. -/

/-- Every channel-loop step advances the cursor by exactly one on success. -/
theorem chanStep_index (data : List ℚ) (st : MotState) (c : String)
    (st2 : MotState) (h : chanStep data st c = .ok st2) :
    st2.index = st.index + 1 := by
  unfold chanStep at h
  repeat' split at h
  all_goals first
    | (cases h; rfl)
    | simp at h

/-- The channel loop advances the cursor by exactly the number of channel
entries on success. -/
theorem chanFold_index (ch : List String) (data : List ℚ) (st st2 : MotState)
    (h : ch.foldlM (chanStep data) st = .ok st2) :
    st2.index = st.index + ch.length := by
  induction ch generalizing st with
  | nil =>
    simp only [List.foldlM_nil] at h
    have h2 : st = st2 := Except.ok.inj h
    subst h2
    simp
  | cons c cl ih =>
    rw [List.foldlM_cons] at h
    cases hc : chanStep data st c with
    | error e =>
      rw [hc] at h
      exact Except.noConfusion h
    | ok st1 =>
      rw [hc] at h
      have h2 := ih st1 h
      have h1 := chanStep_index data st c st1 hc
      simp only [List.length_cons, h2, h1]
      omega

/-- A channel-loop step succeeds whenever the cursor is in range (and also
when the channel name is unrecognized, in which case nothing is read). -/
theorem chanStep_ok (data : List ℚ) (st : MotState) (c : String)
    (h : st.index < data.length) :
    ∃ st2, chanStep data st c = .ok st2 ∧ st2.index = st.index + 1 := by
  have hv : data.get? st.index = some (data.get ⟨st.index, h⟩) := List.get?_eq_get h
  unfold chanStep
  simp only [hv]
  repeat' split
  all_goals exact ⟨_, rfl, rfl⟩

/-- The channel loop succeeds whenever the data vector extends past the slots
of all its entries. -/
theorem chanFold_ok (ch : List String) (data : List ℚ) (st : MotState)
    (h : st.index + ch.length ≤ data.length) :
    ∃ st2, ch.foldlM (chanStep data) st = .ok st2
      ∧ st2.index = st.index + ch.length := by
  induction ch generalizing st with
  | nil => exact ⟨st, by simp [List.foldlM_nil]; rfl, by simp⟩
  | cons c cl ih =>
    have hlt : st.index < data.length := by
      simp only [List.length_cons] at h; omega
    obtain ⟨st1, hc, hidx⟩ := chanStep_ok data st c hlt
    obtain ⟨st2, hf, hidx2⟩ := ih st1 (by simp only [List.length_cons] at h; omega)
    refine ⟨st2, ?_, ?_⟩
    · rw [List.foldlM_cons, hc]
      exact hf
    · simp only [List.length_cons, hidx2, hidx]
      omega

mutual
/-- The threaded-cursor decoder equals the spec-side decoder with computed
pre-order offsets, and the cursor it returns is the input cursor plus the
total channel count of the subtree. -/
theorem deserializeMotion_eq_spec (tq : Vec3 → String → Quat) (j : RootPose)
    (data : List ℚ) (idx : Nat) :
    deserializeMotion tq j data idx
      = Except.map (fun r => (r, idx + totalChannels j)) (decodeSpec tq j data idx) := by
  match j with
  | .mk n o ch es kf cs =>
    unfold deserializeMotion decodeSpec
    cases hf : ch.foldlM (chanStep data) ⟨o, ⟨0, 0, 0⟩, "", idx⟩ with
    | error e => simp [Except.map]
    | ok st =>
      have hidx : st.index = idx + ch.length := by
        have := chanFold_index ch data _ st hf
        simpa using this
      dsimp only
      rw [deserializeMotionList_eq_spec tq cs data st.index, hidx]
      cases decodeSpecList tq cs data (idx + ch.length) with
      | error e => simp [Except.map]
      | ok kids =>
        simp only [Except.map, totalChannels]
        have : idx + ch.length + totalChannelsList cs
            = idx + (ch.length + totalChannelsList cs) := by omega
        rw [this]

/-- List version of `deserializeMotion_eq_spec`. -/
theorem deserializeMotionList_eq_spec (tq : Vec3 → String → Quat) (cs : RPList)
    (data : List ℚ) (idx : Nat) :
    deserializeMotionList tq cs data idx
      = Except.map (fun rs => (rs, idx + totalChannelsList cs))
          (decodeSpecList tq cs data idx) := by
  match cs with
  | .nil => simp [deserializeMotionList, decodeSpecList, Except.map, totalChannelsList]
  | .cons c cl =>
    unfold deserializeMotionList decodeSpecList
    rw [deserializeMotion_eq_spec tq c data idx]
    cases decodeSpec tq c data idx with
    | error e => simp [Except.map]
    | ok c2 =>
      simp only [Except.map]
      rw [deserializeMotionList_eq_spec tq cl data (idx + totalChannels c)]
      cases decodeSpecList tq cl data (idx + totalChannels c) with
      | error e => simp [Except.map]
      | ok cs2 =>
        simp only [Except.map, totalChannelsList]
        have : idx + totalChannels c + totalChannelsList cl
            = idx + (totalChannels c + totalChannelsList cl) := by omega
        rw [this]
end

mutual
/-- The decoder succeeds whenever the data vector has at least as many values
past the starting cursor as the subtree's total channel count; no equality of
counts is required. -/
theorem deserializeMotion_suff (tq : Vec3 → String → Quat) (j : RootPose)
    (data : List ℚ) (idx : Nat) (h : idx + totalChannels j ≤ data.length) :
    ∃ r, deserializeMotion tq j data idx = .ok (r, idx + totalChannels j) := by
  match j with
  | .mk n o ch es kf cs =>
    have hch : idx + ch.length ≤ data.length := by
      simp only [totalChannels] at h; omega
    obtain ⟨st, hf, hidx⟩ :=
      chanFold_ok ch data ⟨o, ⟨0, 0, 0⟩, "", idx⟩ (by simpa using hch)
    have hcs : st.index + totalChannelsList cs ≤ data.length := by
      simp only [totalChannels] at h
      simp only [hidx]
      simpa using (by omega : idx + ch.length + totalChannelsList cs ≤ data.length)
    obtain ⟨rs, hl⟩ := deserializeMotionList_suff tq cs data st.index hcs
    refine ⟨.mk n o ch es (kf ++ [⟨st.position, tq st.rotation st.rotOrder⟩]) rs, ?_⟩
    unfold deserializeMotion
    rw [hf]
    dsimp only
    rw [hl]
    simp only [totalChannels]
    have : st.index + totalChannelsList cs = idx + (ch.length + totalChannelsList cs) := by
      simp only [hidx]; omega
    rw [this]

/-- List version of `deserializeMotion_suff`. -/
theorem deserializeMotionList_suff (tq : Vec3 → String → Quat) (cs : RPList)
    (data : List ℚ) (idx : Nat) (h : idx + totalChannelsList cs ≤ data.length) :
    ∃ rs, deserializeMotionList tq cs data idx
      = .ok (rs, idx + totalChannelsList cs) := by
  match cs with
  | .nil => exact ⟨.nil, by simp [deserializeMotionList, totalChannelsList]⟩
  | .cons c cl =>
    have hc : idx + totalChannels c ≤ data.length := by
      simp only [totalChannelsList] at h; omega
    obtain ⟨r, hr⟩ := deserializeMotion_suff tq c data idx hc
    have hcl : idx + totalChannels c + totalChannelsList cl ≤ data.length := by
      simp only [totalChannelsList] at h; omega
    obtain ⟨rs, hrs⟩ :=
      deserializeMotionList_suff tq cl data (idx + totalChannels c) hcl
    refine ⟨.cons r rs, ?_⟩
    unfold deserializeMotionList
    rw [hr]
    dsimp only
    rw [hrs]
    simp only [totalChannelsList]
    have : idx + totalChannels c + totalChannelsList cl
        = idx + (totalChannels c + totalChannelsList cl) := by omega
    rw [this]
end

/-- Indexing the converted children: each converted child is the recursive
conversion of the corresponding parsed child with every keyframe rewritten
exactly once by the inverse of the parent's bind rotation. -/
theorem convertChildren_get (R : Quat) (cs : RPList) (i : Nat) :
    (convertChildren R cs).get? i
      = (cs.get? i).map (fun c =>
          Joint.mk (convertBvhToJoint c).Name (convertBvhToJoint c).Position
            (convertBvhToJoint c).Rotation (convertBvhToJoint c).Channels
            ((convertBvhToJoint c).Keyframes.map (fun fr =>
              ⟨qrotv (qinv R) fr.Position, qmul (qinv R) fr.Rotation⟩))
            (convertBvhToJoint c).Children) := by
  induction i generalizing cs with
  | zero =>
    cases cs with
    | nil => simp [convertChildren, JList.get?, RPList.get?]
    | cons c cl =>
      simp only [convertChildren, JList.get?, RPList.get?, Option.map]
      cases hcv : convertBvhToJoint c with
      | mk a b r2 ch2 kf2 cc2 =>
        simp [Joint.Name, Joint.Position, Joint.Rotation, Joint.Channels,
          Joint.Keyframes, Joint.Children]
  | succ k ih =>
    cases cs with
    | nil => simp [convertChildren, JList.get?, RPList.get?]
    | cons c cl =>
      simp only [convertChildren, JList.get?, RPList.get?]
      exact ih cl

/-! Claim theorems. -/

/-- C1: the motion decoder walks the joint tree depth-first pre-order with a
single shared cursor. Conjunct 1: the per-joint channel loop consumes exactly
one value per entry in the channels list, in order. Conjunct 2: the threaded
decode coincides with the decode in which every joint's values start at its
independently computed pre-order offset (the parent's offset plus the
parent's channel count plus the totals of the earlier siblings), and the
cursor returned for a joint is the input cursor plus the total number of
channel entries in its subtree. -/
theorem c1_shared_cursor_preorder :
    (∀ (data : List ℚ) (ch : List String) (st st2 : MotState),
        ch.foldlM (chanStep data) st = .ok st2 → st2.index = st.index + ch.length)
    ∧ ∀ (tq : Vec3 → String → Quat) (j : RootPose) (data : List ℚ) (idx : Nat),
        deserializeMotion tq j data idx
          = Except.map (fun r => (r, idx + totalChannels j)) (decodeSpec tq j data idx) :=
  ⟨fun data ch st st2 h => chanFold_index ch data st st2 h,
   fun tq j data idx => deserializeMotion_eq_spec tq j data idx⟩

/-- Closed instance of `c1_shared_cursor_preorder`. -/
theorem c1_shared_cursor_preorder_witness :
    (["Xposition"].foldlM (chanStep [(5 : ℚ)])
        (⟨⟨0, 0, 0⟩, ⟨0, 0, 0⟩, "", 0⟩ : MotState)
      = .ok (⟨⟨5, 0, 0⟩, ⟨0, 0, 0⟩, "", 1⟩ : MotState))
    ∧ (⟨⟨5, 0, 0⟩, ⟨0, 0, 0⟩, "", 1⟩ : MotState).index
        = (⟨⟨0, 0, 0⟩, ⟨0, 0, 0⟩, "", 0⟩ : MotState).index + ["Xposition"].length :=
  ⟨rfl, c1_shared_cursor_preorder.1 [(5 : ℚ)] ["Xposition"] _ _ rfl⟩

/-- C4 counterexample: a frame vector with two values decodes successfully on
a tree whose total channel count is one — the claimed KeyframeArityMismatch
SyntaxError is never raised. -/
theorem c4_counterexample :
    (deserializeMotion tqConst rpX [(1 : ℚ), 2] 0).toOption.isSome = true
    ∧ totalChannels rpX ≠ ([(1 : ℚ), 2]).length := by
  constructor
  · rfl
  · decide

/-- C4 amended: the decoder makes no arity check; it succeeds whenever the
data vector holds at least the subtree's total channel count of values past
the starting cursor, surplus values being ignored. -/
theorem c4_amended_no_arity_check :
    ∀ (tq : Vec3 → String → Quat) (j : RootPose) (data : List ℚ) (idx : Nat),
      idx + totalChannels j ≤ data.length →
      ∃ r, deserializeMotion tq j data idx = .ok (r, idx + totalChannels j) :=
  fun tq j data idx h => deserializeMotion_suff tq j data idx h

/-- Closed instance of `c4_amended_no_arity_check`. -/
theorem c4_amended_no_arity_check_witness :
    0 + totalChannels rpX ≤ ([(1 : ℚ), 2]).length
    ∧ ∃ r, deserializeMotion tqConst rpX [(1 : ℚ), 2] 0
        = .ok (r, 0 + totalChannels rpX) :=
  ⟨by decide, c4_amended_no_arity_check tqConst rpX [(1 : ℚ), 2] 0 (by decide)⟩

/-- C10: a channel whose name is not one of the six recognized names advances
the shared cursor by exactly one, reads nothing from the data vector, leaves
the decoded position, rotation-angle vector and rotation-order string
unchanged, and never fails. -/
theorem c10_unknown_channel_step (data : List ℚ) (st : MotState) (c : String)
    (h : c ∉ (["Xposition", "Yposition", "Zposition",
               "Xrotation", "Yrotation", "Zrotation"] : List String)) :
    chanStep data st c = .ok ⟨st.position, st.rotation, st.rotOrder, st.index + 1⟩ := by
  simp only [List.mem_cons, List.mem_singleton] at h
  push_neg at h
  obtain ⟨h1, h2, h3, h4, h5, h6, -⟩ := h
  unfold chanStep
  simp [h1, h2, h3, h4, h5, h6]

/-- Closed instance of `c10_unknown_channel_step`, on an empty data vector:
the unknown channel neither reads nor fails. -/
theorem c10_unknown_channel_step_witness :
    ("Wobble" ∉ (["Xposition", "Yposition", "Zposition",
                  "Xrotation", "Yrotation", "Zrotation"] : List String))
    ∧ chanStep [] ⟨⟨1, 2, 3⟩, ⟨4, 5, 6⟩, "XY", 7⟩ "Wobble"
        = .ok ⟨⟨1, 2, 3⟩, ⟨4, 5, 6⟩, "XY", 8⟩ :=
  ⟨by decide, c10_unknown_channel_step [] ⟨⟨1, 2, 3⟩, ⟨4, 5, 6⟩, "XY", 7⟩ "Wobble" (by decide)⟩

/-- C2: the converted joint stores the pose's bind rotation, and for every
child index i and frame index f, the converted parent's child keyframe is the
recursively converted child's keyframe rewritten exactly once: its position
multiplied by the inverse bind rotation of the parent and its rotation
left-multiplied by the same inverse. -/
theorem c2_rebase_children :
    ∀ (pose : RootPose) (i f : Nat),
      (convertBvhToJoint pose).Rotation = getRotation pose
      ∧ ((convertBvhToJoint pose).Children.get? i).bind (fun c => c.Keyframes.get? f)
          = ((((pose.Children.get? i).map (fun c => convertBvhToJoint c)).bind
              (fun c => c.Keyframes.get? f)).map
              (fun fr => ⟨qrotv (qinv (getRotation pose)) fr.Position,
                          qmul (qinv (getRotation pose)) fr.Rotation⟩)) := by
  intro pose i f
  match pose with
  | .mk n o ch es kf cs =>
    constructor
    · rfl
    · conv_lhs => rw [convertBvhToJoint]
      dsimp only [Joint.Children]
      rw [convertChildren_get]
      simp only [RootPose.Children]
      cases hc : cs.get? i with
      | none => simp
      | some c =>
        dsimp only [Option.map, Option.bind]
        cases hcv : convertBvhToJoint c with
        | mk n2 p2 r2 ch2 kf2 cc2 =>
          dsimp only [Joint.Keyframes]
          rw [List.get?_map]
          cases kf2.get? f <;> rfl

/-- C3: with the two-frame joint `jXrot` whose keyframe rotations differ,
`writeMotion` emits identical value sequences for frame 0 and frame 1 for
every Euler-extraction function and precision, because the rotation values
are derived from the joint's stored rotation and the frame argument is only
used for the position lookup; hence writing and re-parsing cannot restore
the differing per-frame rotations. -/
theorem c3_writer_rotation_frame_independent :
    (∀ (ge : Quat → String → Vec3) (pr : Nat),
        writeMotion ge pr jXrot 0 = writeMotion ge pr jXrot 1)
    ∧ (jXrot.Keyframes.get? 0).map Pose.Rotation
        ≠ (jXrot.Keyframes.get? 1).map Pose.Rotation := by
  constructor
  · intro ge pr
    rfl
  · decide

/-- C5: due to the operator precedence on line 25 of parser.py (`and` where
the intent, per the error message, is `or`), a first line that is a wrong
keyword with two tokens, or HIERARCHY with a trailing token, is accepted and
the whole document parses successfully — no SyntaxError is raised. -/
theorem c5_header_check_bypassed :
    (readAsBVH tqConst linesWrongHeader).toOption.isSome = true
    ∧ (readAsBVH tqConst linesTrailingHeader).toOption.isSome = true :=
  ⟨rfl, rfl⟩

/-- C6 counterexample: a negative frame count and a zero frame time are both
accepted, contradicting the claimed bounds checks. -/
theorem c6_counterexample :
    deserializeFrameCount ["-5"] ⟨12, 7, "Frames: -5"⟩ = .ok (-5)
    ∧ deserializeFrameTime ["0"] ⟨13, 5, "Frame Time: 0"⟩ = .ok 0 :=
  ⟨rfl, rfl⟩

/-- C6 amended: the Frames and Frame Time values must be a single token that
parses as an integer respectively a float — wrong token counts and
non-numeric tokens raise SyntaxError — but no bound is enforced: any parsed
integer (negative included) and any parsed float (zero and negative
included) are accepted. -/
theorem c6_amended_no_bounds :
    (∀ (t : String) (dbg : Debug) (n : Int), parseInt t = some n →
        deserializeFrameCount [t] dbg = .ok n)
    ∧ (∀ (t : String) (dbg : Debug), parseInt t = none →
        ∃ m, deserializeFrameCount [t] dbg = .error (.syntaxError m dbg))
    ∧ (∀ (d : List String) (dbg : Debug), d.length ≠ 1 →
        ∃ m, deserializeFrameCount d dbg = .error (.syntaxError m dbg))
    ∧ (∀ (t : String) (dbg : Debug) (q : ℚ), parseFloat t = some q →
        deserializeFrameTime [t] dbg = .ok q)
    ∧ (∀ (t : String) (dbg : Debug), parseFloat t = none →
        ∃ m, deserializeFrameTime [t] dbg = .error (.syntaxError m dbg))
    ∧ (∀ (d : List String) (dbg : Debug), d.length ≠ 1 →
        ∃ m, deserializeFrameTime d dbg = .error (.syntaxError m dbg)) := by
  refine ⟨?_, ?_, ?_, ?_, ?_, ?_⟩
  · intro t dbg n h
    simp [deserializeFrameCount, h]
  · intro t dbg h
    exact ⟨"Frame time be numerical", by simp [deserializeFrameCount, h]⟩
  · intro d dbg h
    match d with
    | [] => exact ⟨_, rfl⟩
    | [t] => simp at h
    | a :: b :: r => exact ⟨_, rfl⟩
  · intro t dbg q h
    simp [deserializeFrameTime, h]
  · intro t dbg h
    exact ⟨"Frame time be numerical", by simp [deserializeFrameTime, h]⟩
  · intro d dbg h
    match d with
    | [] => exact ⟨_, rfl⟩
    | [t] => simp at h
    | a :: b :: r => exact ⟨_, rfl⟩

/-- Closed instance of `c6_amended_no_bounds`. -/
theorem c6_amended_no_bounds_witness :
    parseInt "-5" = some (-5)
    ∧ deserializeFrameCount ["-5"] ⟨3, 1, "x"⟩ = .ok (-5) :=
  ⟨by decide, c6_amended_no_bounds.1 "-5" ⟨3, 1, "x"⟩ (-5) (by decide)⟩

/-- C7 counterexample: a document declaring Frames: 2 with one motion line
fails with a bare IndexError carrying no line, column or raw-line payload,
not with a structured UnexpectedEndOfInput error. -/
theorem c7_counterexample :
    readAsBVH tqConst linesShortMotion = .error .indexError := rfl

/-- C7 amended: when the stream is exhausted while a line is required,
`readline` yields the empty string, its token list is empty, and accessing
the first token while building the debug tuple raises a bare IndexError
with no position information. -/
theorem c7_amended_eof_index_error :
    ∀ (n : Nat), parseLine [] n = .error .indexError :=
  fun _ => rfl

/-- C8: for a CHANNELS line whose declared count parses as an integer, the
parse raises the count-mismatch SyntaxError exactly when the declared count
differs from the number of trailing label tokens, and otherwise returns the
trailing tokens unvalidated (any names accepted). -/
theorem c8_channel_count (file : List String) (line0 : String) (ln : Nat)
    (cnt : String) (rest : List String) (n : Int)
    (hsplit : pysplit line0 = "CHANNELS" :: cnt :: rest)
    (hn : parseInt cnt = some n) :
    deserializeChannles (line0 :: file) ln
      = if n = (rest.length : Int) then .ok (rest, file)
        else .error (.syntaxError "Channel count mismatch with labels"
            ⟨ln + 1, pycol line0, line0⟩) := by
  have hcol : pycol line0 = leadingWS line0 + ("CHANNELS" : String).length := by
    unfold pycol
    rw [hsplit]
    rfl
  unfold deserializeChannles parseLine
  dsimp only [readline]
  rw [hsplit]
  dsimp only
  rw [if_neg (by decide : ¬("CHANNELS" : String) ≠ "CHANNELS"), hn]
  dsimp only
  rw [hcol]
  by_cases hEq : n = (rest.length : Int)
  · simp [hEq]
  · simp [hEq]

/-- Closed instance of `c8_channel_count`: a matching count with labels
outside the known vocabulary is accepted, a mismatched count is rejected. -/
theorem c8_channel_count_witness :
    (pysplit "CHANNELS 2 Foo Bar" = ["CHANNELS", "2", "Foo", "Bar"]
      ∧ parseInt "2" = some 2)
    ∧ deserializeChannles ["CHANNELS 2 Foo Bar", "next"] 3 = .ok (["Foo", "Bar"], ["next"])
    ∧ deserializeChannles ["CHANNELS 3 Xposition Yposition"] 3
        = .error (.syntaxError "Channel count mismatch with labels"
            ⟨4, 8, "CHANNELS 3 Xposition Yposition"⟩) := by
  refine ⟨⟨by decide, by decide⟩, ?_, ?_⟩
  · rw [c8_channel_count ["next"] "CHANNELS 2 Foo Bar" 3 "2" ["Foo", "Bar"] 2
      (by decide) (by decide)]
    rw [if_pos (by decide : (2 : Int) = ((["Foo", "Bar"].length : Nat) : Int))]
  · rw [c8_channel_count [] "CHANNELS 3 Xposition Yposition" 3 "3"
      ["Xposition", "Yposition"] 3 (by decide) (by decide)]
    rw [if_neg (by decide :
      ¬((3 : Int) = ((["Xposition", "Yposition"].length : Nat) : Int)))]
    rfl

/-- C9: the short-circuited guard in deserializeJointName (line 102 of
parser.py) never fires, so a ROOT line with extra trailing tokens is
accepted: the document parses successfully and the root joint is named by
the second token. -/
theorem c9_root_extra_tokens_accepted :
    (readAsBVH tqConst linesRootExtra).toOption.map (fun b => b.Root.Name)
      = some "hips" := rfl

end Bvhio
